import Mathlib

/-!
Shallow embedding of the statistical-tests library in `src/main.py`.

The library consists of two namespacing classes, `TTests` and `FTests`, whose static
methods delegate to `scipy.stats` (`ttest_1samp`, `ttest_rel`, `ttest_ind`, `f_oneway`)
except for `two_sample_variance_f_test`, which is written out by hand with `np.var` and
`stats.f.cdf`.  We embed the numeric computations over `ℝ` (exact real arithmetic as the
model of the float computations).  The Student-t and Fisher-F distribution CDFs are the
external collaborator of the library; they are passed to each embedded function as
parameters `tcdf : ℝ → ℝ → ℝ` (argument, degrees of freedom) and
`fcdf : ℝ → ℝ → ℝ → ℝ` (argument, numerator df, denominator df).  scipy's survival
function `sf x = 1 - cdf x` is expanded in place.

Error behaviour is embedded exactly as the Python code behaves at runtime:
`scipy.stats.ttest_rel` raises `ValueError` on unequal-length inputs (modelled as
`StatErr.lengthMismatch`) and `scipy.stats.f_oneway` raises `TypeError` when given fewer
than two groups (modelled as `StatErr.tooFewGroups`).  No other call path raises: numpy
and scipy return IEEE special values (`nan`/`inf`) with warnings on degenerate inputs
(`n < 2`, zero denominator variance) instead of raising.  In the real-valued model those
degenerate divisions take Lean's division-by-zero junk value; only the absence of an
error is meaningful there, never the junk value itself.
-/

/-- Error taxonomy.  The constructors cover the errors named by the specification
(`InvalidInput`, `LengthMismatch`, `InsufficientData`, `DivisionByZero`) plus
`tooFewGroups` for the `TypeError` that `scipy.stats.f_oneway` raises when called with
fewer than two groups.  The embedded code only ever produces `lengthMismatch` and
`tooFewGroups`; the others exist so that claims about them can be stated. -/
inductive StatErr where
  | invalidInput
  | lengthMismatch
  | insufficientData
  | divisionByZero
  | tooFewGroups
deriving DecidableEq

/-- Arithmetic mean of a list (`np.mean`).  For the empty list the division by zero
takes the real-division junk value (Python would produce `nan`). -/
noncomputable def mean (xs : List ℝ) : ℝ := xs.sum / (xs.length : ℝ)

/-- Sample variance with `ddof = 1` (`np.var(xs, ddof=1)`): the sum of squared
deviations from the mean divided by `n - 1`. -/
noncomputable def varSample (xs : List ℝ) : ℝ :=
  ((xs.map fun x => (x - mean xs) ^ 2).sum) / ((xs.length : ℝ) - 1)

/-- `TTests.one_sample_t_test` (src/main.py:23-36), delegating to
`scipy.stats.ttest_1samp(sample, population_mean)`:
`t = (mean(sample) - popmean) / sqrt(var(sample, ddof=1) / n)` and the two-sided
p-value `2 * sf(|t|)` with `sf x = 1 - tcdf x df` at `df = n - 1` degrees of freedom.
scipy raises nothing on degenerate input (it returns `nan` with a warning), so there is
no error branch. -/
noncomputable def one_sample_t_test (tcdf : ℝ → ℝ → ℝ) (sample : List ℝ)
    (population_mean : ℝ) : Except StatErr (ℝ × ℝ) :=
  .ok ((mean sample - population_mean) /
         Real.sqrt (varSample sample / (sample.length : ℝ)),
       2 * (1 - tcdf
         |(mean sample - population_mean) /
            Real.sqrt (varSample sample / (sample.length : ℝ))|
         ((sample.length : ℝ) - 1)))

/-- `TTests.paired_sample_t_test` (src/main.py:38-51), delegating to
`scipy.stats.ttest_rel(sample1, sample2)`: unequal-length inputs raise `ValueError`
(modelled as `lengthMismatch`); otherwise, with `d = sample1 - sample2` elementwise,
`t = mean(d) / sqrt(var(d, ddof=1) / n)` and the two-sided p-value at `n - 1` degrees
of freedom. -/
noncomputable def paired_sample_t_test (tcdf : ℝ → ℝ → ℝ) (sample1 sample2 : List ℝ) :
    Except StatErr (ℝ × ℝ) :=
  if sample1.length ≠ sample2.length then .error .lengthMismatch
  else
    .ok (mean (List.zipWith (· - ·) sample1 sample2) /
           Real.sqrt (varSample (List.zipWith (· - ·) sample1 sample2) /
             ((List.zipWith (· - ·) sample1 sample2).length : ℝ)),
         2 * (1 - tcdf
           |mean (List.zipWith (· - ·) sample1 sample2) /
              Real.sqrt (varSample (List.zipWith (· - ·) sample1 sample2) /
                ((List.zipWith (· - ·) sample1 sample2).length : ℝ))|
           (((List.zipWith (· - ·) sample1 sample2).length : ℝ) - 1)))

/-- `TTests.independent_two_sample_t_test` (src/main.py:53-66), delegating to
`scipy.stats.ttest_ind(sample1, sample2)` with its default pooled (equal-variance)
formulation: `df = n1 + n2 - 2`,
`svar = ((n1-1) * var1 + (n2-1) * var2) / df`,
`t = (mean1 - mean2) / sqrt(svar * (1/n1 + 1/n2))`, two-sided p-value at `df`. -/
noncomputable def independent_two_sample_t_test (tcdf : ℝ → ℝ → ℝ)
    (sample1 sample2 : List ℝ) : Except StatErr (ℝ × ℝ) :=
  .ok ((mean sample1 - mean sample2) /
         Real.sqrt
           ((((sample1.length : ℝ) - 1) * varSample sample1 +
               ((sample2.length : ℝ) - 1) * varSample sample2) /
              ((sample1.length : ℝ) + (sample2.length : ℝ) - 2) *
            (1 / (sample1.length : ℝ) + 1 / (sample2.length : ℝ))),
       2 * (1 - tcdf
         |(mean sample1 - mean sample2) /
            Real.sqrt
              ((((sample1.length : ℝ) - 1) * varSample sample1 +
                  ((sample2.length : ℝ) - 1) * varSample sample2) /
                 ((sample1.length : ℝ) + (sample2.length : ℝ) - 2) *
               (1 / (sample1.length : ℝ) + 1 / (sample2.length : ℝ)))|
         ((sample1.length : ℝ) + (sample2.length : ℝ) - 2)))

/-- `FTests.one_way_anova_f_test` (src/main.py:78-90), delegating to
`scipy.stats.f_oneway(*groups)`: fewer than two groups raise `TypeError` (modelled as
`tooFewGroups`); otherwise, with `N` the total observation count and `k` the number of
groups, `sstot = ss(all) - sq(sum(all))/N`, `ssbn = sum_g sq(sum(g))/n_g - sq(sum(all))/N`,
`sswn = sstot - ssbn`, `F = (ssbn/(k-1)) / (sswn/(N-k))`, and the upper-tail p-value
`1 - fcdf F (k-1) (N-k)`. -/
noncomputable def one_way_anova_f_test (fcdf : ℝ → ℝ → ℝ → ℝ)
    (groups : List (List ℝ)) : Except StatErr (ℝ × ℝ) :=
  if groups.length < 2 then .error .tooFewGroups
  else
    .ok ((((groups.map fun g => g.sum ^ 2 / (g.length : ℝ)).sum -
             (groups.flatten.sum) ^ 2 / (groups.flatten.length : ℝ)) /
            ((groups.length : ℝ) - 1)) /
           ((((groups.flatten.map fun x => x ^ 2).sum -
                (groups.flatten.sum) ^ 2 / (groups.flatten.length : ℝ)) -
               ((groups.map fun g => g.sum ^ 2 / (g.length : ℝ)).sum -
                  (groups.flatten.sum) ^ 2 / (groups.flatten.length : ℝ))) /
              ((groups.flatten.length : ℝ) - (groups.length : ℝ))),
         1 - fcdf
           ((((groups.map fun g => g.sum ^ 2 / (g.length : ℝ)).sum -
                (groups.flatten.sum) ^ 2 / (groups.flatten.length : ℝ)) /
               ((groups.length : ℝ) - 1)) /
              ((((groups.flatten.map fun x => x ^ 2).sum -
                   (groups.flatten.sum) ^ 2 / (groups.flatten.length : ℝ)) -
                  ((groups.map fun g => g.sum ^ 2 / (g.length : ℝ)).sum -
                     (groups.flatten.sum) ^ 2 / (groups.flatten.length : ℝ))) /
                 ((groups.flatten.length : ℝ) - (groups.length : ℝ))))
           ((groups.length : ℝ) - 1)
           ((groups.flatten.length : ℝ) - (groups.length : ℝ)))

/-- `FTests.two_sample_variance_f_test` (src/main.py:92-107), written out in the source:
`F = var(sample1, ddof=1) / var(sample2, ddof=1)`, `dfn = n1 - 1`, `dfd = n2 - 1`,
`p = 1 - fcdf F dfn dfd`.  The source performs no validation: a zero denominator
variance is an IEEE division (`inf`/`nan` with a warning) in Python, never an exception,
so there is no error branch. -/
noncomputable def two_sample_variance_f_test (fcdf : ℝ → ℝ → ℝ → ℝ)
    (sample1 sample2 : List ℝ) : Except StatErr (ℝ × ℝ) :=
  .ok (varSample sample1 / varSample sample2,
       1 - fcdf (varSample sample1 / varSample sample2)
         ((sample1.length : ℝ) - 1) ((sample2.length : ℝ) - 1))

/-- The p-value component of a successful result lies in the unit interval; an error
result satisfies the predicate vacuously. -/
def pInUnit : Except StatErr (ℝ × ℝ) → Prop
  | .ok r => 0 ≤ r.2 ∧ r.2 ≤ 1
  | .error _ => True

/-- The sum of squared deviations is nonnegative. -/
theorem sum_sq_dev_nonneg (xs : List ℝ) (m : ℝ) :
    0 ≤ ((xs.map fun x => (x - m) ^ 2).sum) := by
  apply List.sum_nonneg
  intro y hy
  simp only [List.mem_map] at hy
  obtain ⟨x, _, rfl⟩ := hy
  positivity

/-- For a sample of at least two observations the sample variance is nonnegative. -/
theorem varSample_nonneg (xs : List ℝ) (h : 2 ≤ xs.length) : 0 ≤ varSample xs := by
  unfold varSample
  apply div_nonneg (sum_sq_dev_nonneg xs (mean xs))
  have h2 : (2 : ℝ) ≤ (xs.length : ℝ) := by exact_mod_cast h
  linarith

/-- C1: for every sample of `n ≥ 2` reals with nonzero sample variance and every real
population mean, `one_sample_t_test` returns the pair `(t, p)` with
`t = (mean(sample) - population_mean) / (stddev(sample, ddof=1) / sqrt n)` and
`p = 2 * (1 - tcdf |t| (n - 1))`, `tcdf` being the Student-t CDF at `n - 1` degrees of
freedom. -/
theorem one_sample_t_test_formula (tcdf : ℝ → ℝ → ℝ) (sample : List ℝ)
    (population_mean : ℝ) (hn : 2 ≤ sample.length) (hv : varSample sample ≠ 0) :
    one_sample_t_test tcdf sample population_mean =
      .ok ((mean sample - population_mean) /
             (Real.sqrt (varSample sample) / Real.sqrt (sample.length : ℝ)),
           2 * (1 - tcdf
             |(mean sample - population_mean) /
                (Real.sqrt (varSample sample) / Real.sqrt (sample.length : ℝ))|
             ((sample.length : ℝ) - 1))) := by
  unfold one_sample_t_test
  rw [Real.sqrt_div' (varSample sample) (Nat.cast_nonneg sample.length)]

/-- Witness for C1 at the sample `[1, 2, 3]` with population mean `0`. -/
theorem one_sample_t_test_formula_witness :
    one_sample_t_test (fun _ _ => 1 / 2) [1, 2, 3] 0 =
      .ok ((mean [1, 2, 3] - 0) /
             (Real.sqrt (varSample [1, 2, 3]) / Real.sqrt (([1, 2, 3] : List ℝ).length : ℝ)),
           2 * (1 - (fun (_ : ℝ) (_ : ℝ) => (1 : ℝ) / 2)
             |(mean [1, 2, 3] - 0) /
                (Real.sqrt (varSample [1, 2, 3]) /
                  Real.sqrt (([1, 2, 3] : List ℝ).length : ℝ))|
             ((([1, 2, 3] : List ℝ).length : ℝ) - 1))) :=
  one_sample_t_test_formula _ _ _ (by norm_num) (by norm_num [varSample, mean])

/-- C2: for samples with `n1 ≥ 2`, `n2 ≥ 2` and nonzero variance of the second sample,
`two_sample_variance_f_test` returns `F = var(sample1, ddof=1) / var(sample2, ddof=1)`
and `p = 1 - fcdf F (n1 - 1) (n2 - 1)`, the upper tail of the F-distribution. -/
theorem two_sample_variance_f_test_formula (fcdf : ℝ → ℝ → ℝ → ℝ)
    (sample1 sample2 : List ℝ) (h1 : 2 ≤ sample1.length) (h2 : 2 ≤ sample2.length)
    (hv : varSample sample2 ≠ 0) :
    two_sample_variance_f_test fcdf sample1 sample2 =
      .ok (varSample sample1 / varSample sample2,
           1 - fcdf (varSample sample1 / varSample sample2)
             ((sample1.length : ℝ) - 1) ((sample2.length : ℝ) - 1)) := rfl

/-- Witness for C2 at the samples `[1, 2]` and `[1, 3]`. -/
theorem two_sample_variance_f_test_formula_witness :
    two_sample_variance_f_test (fun _ _ _ => 1 / 2) [1, 2] [1, 3] =
      .ok (varSample [1, 2] / varSample [1, 3],
           1 - (fun (_ : ℝ) (_ : ℝ) (_ : ℝ) => (1 : ℝ) / 2)
             (varSample [1, 2] / varSample [1, 3])
             ((([1, 2] : List ℝ).length : ℝ) - 1) ((([1, 3] : List ℝ).length : ℝ) - 1)) :=
  two_sample_variance_f_test_formula _ _ _ (by norm_num) (by norm_num)
    (by norm_num [varSample, mean])

/-- C3: for equal-length samples whose elementwise differences have nonzero variance,
`paired_sample_t_test a b` returns exactly the result of `one_sample_t_test` on the
difference sequence `a - b` with hypothesized mean `0`. -/
theorem paired_sample_t_test_eq_one_sample (tcdf : ℝ → ℝ → ℝ) (a b : List ℝ)
    (hlen : a.length = b.length) (hn : 2 ≤ a.length)
    (hv : varSample (List.zipWith (· - ·) a b) ≠ 0) :
    paired_sample_t_test tcdf a b =
      one_sample_t_test tcdf (List.zipWith (· - ·) a b) 0 := by
  unfold paired_sample_t_test one_sample_t_test
  rw [if_neg (by omega : ¬a.length ≠ b.length)]
  simp only [sub_zero]

/-- Witness for C3 at the samples `[1, 2, 4]` and `[0, 0, 1]` (differences `[1, 2, 3]`). -/
theorem paired_sample_t_test_eq_one_sample_witness :
    paired_sample_t_test (fun _ _ => 1 / 2) [1, 2, 4] [0, 0, 1] =
      one_sample_t_test (fun _ _ => 1 / 2)
        (List.zipWith (· - ·) [1, 2, 4] [0, 0, 1]) 0 :=
  paired_sample_t_test_eq_one_sample _ _ _ (by norm_num) (by norm_num)
    (by norm_num [List.zipWith, varSample, mean])

/-- C5: for samples of unequal lengths, `paired_sample_t_test` rejects the input with
the length-mismatch error before any computation and produces no `(t, p)` result
(`scipy.stats.ttest_rel` raises `ValueError` on unequal lengths). -/
theorem paired_sample_t_test_length_mismatch (tcdf : ℝ → ℝ → ℝ) (a b : List ℝ)
    (h : a.length ≠ b.length) :
    paired_sample_t_test tcdf a b = .error .lengthMismatch := by
  unfold paired_sample_t_test
  rw [if_pos h]

/-- Witness for C5 at the samples `[1, 2, 3]` and `[1, 2]`. -/
theorem paired_sample_t_test_length_mismatch_witness :
    paired_sample_t_test (fun _ _ => 1 / 2) [1, 2, 3] [1, 2] =
      .error .lengthMismatch :=
  paired_sample_t_test_length_mismatch _ _ _ (by norm_num)

/-- C4 counterexample: on the second sample `[1, 1]`, whose sample variance is zero,
`two_sample_variance_f_test` still returns a result (`.ok`); the source performs no
validation, so no DivisionByZero failure occurs (Python produces an IEEE `inf`/`nan`
value with a runtime warning instead of raising). -/
theorem two_sample_variance_f_test_zero_var_cex :
    varSample [1, 1] = 0 ∧
    (two_sample_variance_f_test (fun _ _ _ => 1 / 2) [1, 2] [1, 1]).isOk = true :=
  ⟨by norm_num [varSample, mean], rfl⟩

/-- C4 amended: `two_sample_variance_f_test` performs no input validation and never
fails; with a zero-variance second sample the division is an IEEE division
(`inf`/`nan` in Python) and a `(F, p)` pair is still returned. -/
theorem two_sample_variance_f_test_never_errors (fcdf : ℝ → ℝ → ℝ → ℝ)
    (sample1 sample2 : List ℝ) :
    (two_sample_variance_f_test fcdf sample1 sample2).isOk = true := rfl

/-- C6 counterexample: on the one-element sample `[5]` (so `n = 1 < 2`),
`one_sample_t_test` still returns a result (`.ok`); no InvalidInput failure occurs
(`scipy.stats.ttest_1samp` emits a warning and returns `nan` values instead of
raising). -/
theorem one_sample_t_test_small_sample_cex :
    ([5] : List ℝ).length < 2 ∧
    (one_sample_t_test (fun _ _ => 1 / 2) [5] 0).isOk = true :=
  ⟨by norm_num, rfl⟩

/-- C6 amended: `one_sample_t_test` performs no input validation and never fails; with
`n < 2` (and likewise with non-finite sample values, which the real-valued model cannot
represent) Python returns a `(nan, nan)` pair rather than raising InvalidInput. -/
theorem one_sample_t_test_never_errors (tcdf : ℝ → ℝ → ℝ) (sample : List ℝ)
    (population_mean : ℝ) :
    (one_sample_t_test tcdf sample population_mean).isOk = true := rfl

/-- C7: with the population mean equal to the sample's own mean and nonzero sample
variance, `one_sample_t_test` returns `t = 0` and `p = 1`, using the defining property
of the external Student-t CDF that its value at `0` is `1/2`. -/
theorem one_sample_t_test_at_sample_mean (tcdf : ℝ → ℝ → ℝ) (sample : List ℝ)
    (hn : 2 ≤ sample.length) (hv : varSample sample ≠ 0)
    (hcdf : tcdf 0 ((sample.length : ℝ) - 1) = 1 / 2) :
    one_sample_t_test tcdf sample (mean sample) = .ok (0, 1) := by
  unfold one_sample_t_test
  rw [sub_self, zero_div, abs_zero, hcdf]
  norm_num

/-- Witness for C7 at the sample `[1, 2, 3]` (mean `2`). -/
theorem one_sample_t_test_at_sample_mean_witness :
    one_sample_t_test (fun _ _ => 1 / 2) [1, 2, 3] (mean [1, 2, 3]) = .ok (0, 1) :=
  one_sample_t_test_at_sample_mean _ _ (by norm_num) (by norm_num [varSample, mean]) rfl

/-- C8: for samples with `n ≥ 2` and nonzero sample variance each way, the F statistics
of `two_sample_variance_f_test` in the two argument orders are exact reciprocals. -/
theorem two_sample_variance_f_test_reciprocal (fcdf : ℝ → ℝ → ℝ → ℝ) (a b : List ℝ)
    (h1 : 2 ≤ a.length) (h2 : 2 ≤ b.length)
    (hva : varSample a ≠ 0) (hvb : varSample b ≠ 0) :
    ∃ p q,
      two_sample_variance_f_test fcdf a b = .ok (varSample a / varSample b, p) ∧
      two_sample_variance_f_test fcdf b a = .ok (varSample b / varSample a, q) ∧
      varSample a / varSample b * (varSample b / varSample a) = 1 := by
  refine ⟨_, _, rfl, rfl, ?_⟩
  rw [div_mul_div_comm, mul_comm (varSample b) (varSample a)]
  exact div_self (mul_ne_zero hva hvb)

/-- Witness for C8 at the samples `[1, 2]` and `[1, 3]`. -/
theorem two_sample_variance_f_test_reciprocal_witness :
    ∃ p q,
      two_sample_variance_f_test (fun _ _ _ => 1 / 2) [1, 2] [1, 3] =
        .ok (varSample [1, 2] / varSample [1, 3], p) ∧
      two_sample_variance_f_test (fun _ _ _ => 1 / 2) [1, 3] [1, 2] =
        .ok (varSample [1, 3] / varSample [1, 2], q) ∧
      varSample [1, 2] / varSample [1, 3] * (varSample [1, 3] / varSample [1, 2]) = 1 :=
  two_sample_variance_f_test_reciprocal _ _ _ (by norm_num) (by norm_num)
    (by norm_num [varSample, mean]) (by norm_num [varSample, mean])

/-- The arithmetic mean is invariant under permutation of the list. -/
theorem mean_perm {xs ys : List ℝ} (h : xs.Perm ys) : mean xs = mean ys := by
  unfold mean
  rw [h.sum_eq, h.length_eq]

/-- The sample variance is invariant under permutation of the list. -/
theorem varSample_perm {xs ys : List ℝ} (h : xs.Perm ys) :
    varSample xs = varSample ys := by
  unfold varSample
  rw [mean_perm h, (h.map fun x => (x - mean ys) ^ 2).sum_eq, h.length_eq]

/-- C10: `two_sample_variance_f_test` is invariant under permuting the elements of
either sample: the result depends only on the samples' variances and lengths. -/
theorem two_sample_variance_f_test_perm_invariant (fcdf : ℝ → ℝ → ℝ → ℝ)
    (a a' b b' : List ℝ) (ha : a'.Perm a) (hb : b'.Perm b)
    (h1 : 2 ≤ a.length) (h2 : 2 ≤ b.length) (hv : varSample b ≠ 0) :
    two_sample_variance_f_test fcdf a' b' = two_sample_variance_f_test fcdf a b := by
  unfold two_sample_variance_f_test
  rw [varSample_perm ha, varSample_perm hb, ha.length_eq, hb.length_eq]

/-- Witness for C10 at the permuted samples `[2, 1] ~ [1, 2]` and `[4, 3] ~ [3, 4]`. -/
theorem two_sample_variance_f_test_perm_invariant_witness :
    two_sample_variance_f_test (fun _ _ _ => 1 / 2) [2, 1] [4, 3] =
      two_sample_variance_f_test (fun _ _ _ => 1 / 2) [1, 2] [3, 4] :=
  two_sample_variance_f_test_perm_invariant _ _ _ _ _
    (List.Perm.swap 1 2 []) (List.Perm.swap 3 4 [])
    (by norm_num) (by norm_num) (by norm_num [varSample, mean])

/-- A two-sided t-test p-value `2 * (1 - c)` lies in the unit interval whenever the CDF
value `c` lies in `[1/2, 1]`. -/
theorem two_sided_p_in_unit {c : ℝ} (h1 : 1 / 2 ≤ c) (h2 : c ≤ 1) :
    0 ≤ 2 * (1 - c) ∧ 2 * (1 - c) ≤ 1 :=
  ⟨by linarith, by linarith⟩

/-- C9: every successful call of any of the five test functions returns a p-value in
`[0, 1]`, given the defining range properties of the external distribution CDFs: the
Student-t CDF maps nonnegative arguments into `[1/2, 1]` and the F CDF maps into
`[0, 1]`. -/
theorem all_p_values_in_unit_interval (tcdf : ℝ → ℝ → ℝ) (fcdf : ℝ → ℝ → ℝ → ℝ)
    (htc : ∀ x d, 0 ≤ x → 1 / 2 ≤ tcdf x d ∧ tcdf x d ≤ 1)
    (hfc : ∀ x d1 d2, 0 ≤ fcdf x d1 d2 ∧ fcdf x d1 d2 ≤ 1)
    (sample : List ℝ) (population_mean : ℝ) (sample1 sample2 : List ℝ)
    (groups : List (List ℝ)) :
    pInUnit (one_sample_t_test tcdf sample population_mean) ∧
    pInUnit (paired_sample_t_test tcdf sample1 sample2) ∧
    pInUnit (independent_two_sample_t_test tcdf sample1 sample2) ∧
    pInUnit (one_way_anova_f_test fcdf groups) ∧
    pInUnit (two_sample_variance_f_test fcdf sample1 sample2) := by
  refine ⟨?_, ?_, ?_, ?_, ?_⟩
  · simp only [one_sample_t_test, pInUnit]
    exact two_sided_p_in_unit (htc _ _ (abs_nonneg _)).1 (htc _ _ (abs_nonneg _)).2
  · unfold paired_sample_t_test
    split
    · simp only [pInUnit]
    · simp only [pInUnit]
      exact two_sided_p_in_unit (htc _ _ (abs_nonneg _)).1 (htc _ _ (abs_nonneg _)).2
  · simp only [independent_two_sample_t_test, pInUnit]
    exact two_sided_p_in_unit (htc _ _ (abs_nonneg _)).1 (htc _ _ (abs_nonneg _)).2
  · unfold one_way_anova_f_test
    split
    · simp only [pInUnit]
    · simp only [pInUnit]
      obtain ⟨hl, hr⟩ := hfc (((((groups.map fun g => g.sum ^ 2 / (g.length : ℝ)).sum -
        (groups.flatten.sum) ^ 2 / (groups.flatten.length : ℝ)) /
          ((groups.length : ℝ) - 1)) /
         ((((groups.flatten.map fun x => x ^ 2).sum -
              (groups.flatten.sum) ^ 2 / (groups.flatten.length : ℝ)) -
             ((groups.map fun g => g.sum ^ 2 / (g.length : ℝ)).sum -
                (groups.flatten.sum) ^ 2 / (groups.flatten.length : ℝ))) /
            ((groups.flatten.length : ℝ) - (groups.length : ℝ)))))
        ((groups.length : ℝ) - 1) ((groups.flatten.length : ℝ) - (groups.length : ℝ))
      exact ⟨by linarith, by linarith⟩
  · simp only [two_sample_variance_f_test, pInUnit]
    obtain ⟨hl, hr⟩ := hfc (varSample sample1 / varSample sample2)
      ((sample1.length : ℝ) - 1) ((sample2.length : ℝ) - 1)
    exact ⟨by linarith, by linarith⟩

/-- Witness for C9 with the constant CDFs `1/2` at concrete samples. -/
theorem all_p_values_in_unit_interval_witness :
    pInUnit (one_sample_t_test (fun _ _ => 1 / 2) [1, 2] 0) ∧
    pInUnit (paired_sample_t_test (fun _ _ => 1 / 2) [1, 2] [3, 4]) ∧
    pInUnit (independent_two_sample_t_test (fun _ _ => 1 / 2) [1, 2] [3, 4]) ∧
    pInUnit (one_way_anova_f_test (fun _ _ _ => 1 / 2) [[1, 2], [3, 4]]) ∧
    pInUnit (two_sample_variance_f_test (fun _ _ _ => 1 / 2) [1, 2] [3, 4]) :=
  all_p_values_in_unit_interval _ _
    (fun _ _ _ => by norm_num) (fun _ _ _ => by norm_num) [1, 2] 0 [1, 2] [3, 4]
    [[1, 2], [3, 4]]
